import Mathlib

/-!
# Verification of the automx2 generator subsystem (Apple generator)

Shallow embedding of `src/automx2/generators/__init__.py` and
`src/automx2/generators/apple.py`.  Python dictionaries are modelled as
association lists in insertion order; exceptions are modelled with
`Except`; the external collaborators (persistence model, directory
client, placeholder expander) that live outside the excerpt are
modelled from the specification where noted.
-/

set_option autoImplicit false

namespace Automx2

/-- Modelled from the spec (§4.3): configuration strings may contain
recognized placeholder tokens for the local part and the domain.  A
template is a sequence of segments, each either literal text or one of
the two placeholder tokens.  A plain runtime string `s` corresponds to
the one-segment template `[Seg.lit s]`. -/
inductive Seg where
  | lit : String → Seg
  | phLocal : Seg
  | phDomain : Seg
deriving DecidableEq, Repr

/-- A template string: literal text interleaved with placeholder tokens. -/
def Template : Type := List Seg
deriving DecidableEq, Repr

/-- The template holding plain literal text `s` (no placeholder tokens). -/
def tlit (s : String) : Template := [Seg.lit s]

/-- Modelled from the spec (§4.3, `automx2.util.expand_placeholders`, not in
the excerpt): replace every recognized placeholder token by the
corresponding value. -/
def expand_placeholders (t : Template) (local_part domain : String) : Template :=
  t.map (fun seg =>
    match seg with
    | Seg.lit s => Seg.lit s
    | Seg.phLocal => Seg.lit local_part
    | Seg.phDomain => Seg.lit domain)

/-- A template is free of unexpanded placeholder tokens when every
segment is literal text. -/
def Template.tokenFree (t : Template) : Bool :=
  t.all (fun seg =>
    match seg with
    | Seg.lit _ => true
    | _ => false)

/-- Render a template to the actual character string (placeholder tokens
render as their literal token text). -/
def Template.render (t : Template) : String :=
  t.foldl (fun acc seg =>
    match seg with
    | Seg.lit s => acc ++ s
    | Seg.phLocal => acc ++ "%EMAILLOCALPART%"
    | Seg.phDomain => acc ++ "%EMAILDOMAIN%") ""

/-- Modelled from the spec (§3): status tag of a directory lookup result,
one of ok / no-match / error (`automx2.ldap`, not in the excerpt). -/
inductive LStatus where
  | ok : LStatus
  | noMatch : LStatus
  | error : LStatus
deriving DecidableEq, Repr

/-- Modelled from the spec (§3): the structured result of a directory
lookup (`automx2.ldap.LookupResult`, not in the excerpt). -/
structure LookupResult where
  status : LStatus
  cn : Option String
  uid : Option String
deriving DecidableEq, Repr

/-- Modelled from the spec (§3): directory server connection parameters
(`automx2.model.Ldapserver`, not in the excerpt; consumed read-only). -/
structure Ldapserver where
  name : String
  port : Int
  use_ssl : Bool
  bind_user : String
  bind_password : String
  search_base : String
  search_filter : String
  attr_uid : String
  attr_cn : String
deriving DecidableEq, Repr

/-- Modelled from the spec (§3): a provider is a marker that a domain is
configured at all (`automx2.model.Provider`, not in the excerpt). -/
structure Provider where
  name : String
deriving DecidableEq, Repr

/-- Modelled from the spec (§3): one configured mail server
(`automx2.model.Server`, not in the excerpt; consumed read-only).  The
host name and user name come from stored configuration and may contain
placeholder tokens, hence `Template`. -/
structure Server where
  type : String
  name : Template
  port : Int
  user_name : Template
  authentication : String
  socket_type : String
deriving DecidableEq, Repr

/-- Modelled from the spec (§3): a domain with its optional provider,
ordered server collection and optional directory server
(`automx2.model.Domain`, not in the excerpt; consumed read-only). -/
structure Domain where
  name : String
  provider : Option Provider
  servers : List Server
  ldapserver : Option Ldapserver
deriving DecidableEq, Repr

/-- The error taxonomy raised by the generator subsystem.  The first six
constructors are the named exception classes imported from `automx2`;
`typeError` is Python's `TypeError` raised by `_sanitise` for a null
payload value; `attributeError` is the `AttributeError` Python raises
when `_sanitise` is applied to a non-dict list element. -/
inductive Err where
  | domainNotFound : String → Err
  | noProviderForDomain : String → Err
  | noServersForDomain : String → Err
  | invalidServerType : String → Err
  | invalidAuthenticationType : String → Err
  | ldapLookupError : String → Err
  | typeError : String → Err
  | attributeError : Err
deriving DecidableEq, Repr

/-- `AUTH_MAP` from apple.py. -/
def AUTH_MAP : List (String × String) :=
  [("none", "EmailAuthNone"), ("NTLM", "EmailAuthNTLM"), ("plain", "EmailAuthPassword")]

/-- `TYPE_DIRECTION_MAP` from apple.py. -/
def TYPE_DIRECTION_MAP : List (String × String) :=
  [("imap", "Incoming"), ("smtp", "Outgoing")]

/-- `_map_socket_type` from apple.py: map socket type to True (use SSL)
or False (do not use SSL). -/
def map_socket_type (server : Server) : Bool :=
  if server.socket_type = "SSL" ∨ server.socket_type = "STARTTLS" then
    true
  else
    false

/-- `_map_authentication` from apple.py: look the server's
authentication kind up in `AUTH_MAP`, raising
`InvalidAuthenticationType` when it is absent. -/
def map_authentication (server : Server) : Except Err String :=
  match AUTH_MAP.lookup server.authentication with
  | some a => Except.ok a
  | none =>
      Except.error (Err.invalidAuthenticationType
        ("Invalid authentication type \"" ++ server.authentication ++ "\""))

/-- `IDENTIFIER` from the automx2 package root (not in the excerpt): the
brand prefix used by `branded_id`. -/
def IDENTIFIER : String := "automx2"

/-- `branded_id` from generators/__init__.py. -/
def branded_id (id_ : String) : String := IDENTIFIER ++ "-" ++ id_

/-- `ConfigGenerator._ldap_lookup` from generators/__init__.py.  The
external directory client (`automx2.ldap.LdapAccess`) is modelled as a
function `client` from the server parameters and the looked-up email
address to the structured result it returns; the helper raises
`LdapLookupError` exactly when that result carries the error status and
otherwise passes the result through. -/
def ldap_lookup (client : Ldapserver → String → LookupResult)
    (email_address : String) (server : Ldapserver) : Except Err LookupResult :=
  let r := client server email_address
  if r.status = LStatus.error then
    Except.error (Err.ldapLookupError "LDAP bind failed")
  else
    Except.ok r

/-- A value of the payload tree: the Python values appearing in the
payload dictionaries of apple.py are `None`, booleans, integers,
strings (templates) and dictionaries and lists of such values.  A
Python dict is modelled as its association list in insertion order. -/
inductive Value where
  | vnull : Value
  | vbool : Bool → Value
  | vint : Int → Value
  | vstr : Template → Value
  | vdict : List (String × Value) → Value
  | vlist : List Value → Value
deriving Repr

/-- Python dictionary assignment `d[k] = v`: replace the value at an
existing key in place (keeping the insertion order), otherwise append
the new binding at the end. -/
def dictSet (d : List (String × Value)) (k : String) (v : Value) :
    List (String × Value) :=
  if d.any (fun p => p.1 = k) then
    d.map (fun p => if p.1 = k then (k, v) else p)
  else
    d ++ [(k, v)]

/-- Python dictionary read `d[k]` (as an option): the value at the
first binding of the key. -/
def dictGet (k : String) : List (String × Value) → Option Value
  | [] => none
  | (a, v) :: rest => if a = k then some v else dictGet k rest

/-- The inner (per-account) payload dictionary built by `_payload` in
apple.py, in insertion order.  `uuid` stands for the first value the
external `unique()` source produced. -/
def payload_inner (local_part domain uuid : String) : List (String × Value) :=
  [("EmailAccountDescription", Value.vstr (tlit (local_part ++ "@" ++ domain))),
   ("EmailAccountName", Value.vnull),
   ("EmailAccountType", Value.vstr (tlit "EmailTypeIMAP")),
   ("EmailAddress", Value.vstr (tlit (local_part ++ "@" ++ domain))),
   ("IncomingMailServerAuthentication", Value.vstr (tlit "EmailAuthPassword")),
   ("IncomingMailServerHostName", Value.vnull),
   ("IncomingMailServerPortNumber", Value.vint (-1)),
   ("IncomingMailServerUseSSL", Value.vnull),
   ("IncomingMailServerUsername", Value.vnull),
   ("OutgoingMailServerAuthentication", Value.vstr (tlit "EmailAuthPassword")),
   ("OutgoingMailServerHostName", Value.vnull),
   ("OutgoingMailServerPortNumber", Value.vint (-1)),
   ("OutgoingMailServerUseSSL", Value.vnull),
   ("OutgoingMailServerUsername", Value.vnull),
   ("OutgoingPasswordSameAsIncomingPassword", Value.vbool true),
   ("PayloadDescription",
     Value.vstr (tlit ("Email account configuration for " ++ local_part ++ "@" ++ domain))),
   ("PayloadDisplayName", Value.vstr (tlit domain)),
   ("PayloadIdentifier", Value.vstr (tlit ("com.apple.mail.managed." ++ uuid))),
   ("PayloadType", Value.vstr (tlit "com.apple.mail.managed")),
   ("PayloadUUID", Value.vstr (tlit uuid)),
   ("PayloadVersion", Value.vint 1),
   ("SMIMEEnablePerMessageSwitch", Value.vbool false),
   ("SMIMEEnabled", Value.vbool false),
   ("SMIMEEncryptionEnabled", Value.vbool false),
   ("SMIMESigningEnabled", Value.vbool false),
   ("allowMailDrop", Value.vbool false),
   ("disableMailRecentsSyncing", Value.vbool false)]

/-- The outer (envelope) payload dictionary built by `_payload` in
apple.py.  In Python the outer tree holds a reference to the inner
dict, so mutations of the inner dict are visible through the outer
tree; the embedding makes that explicit by taking the current inner
dict as an argument.  `uuid2` stands for the second value the external
`unique()` source produced. -/
def payload_outer (domain uuid2 : String) (inner : List (String × Value)) :
    List (String × Value) :=
  [("PayloadContent", Value.vlist [Value.vdict inner]),
   ("PayloadDisplayName", Value.vstr (tlit ("Mail account " ++ domain))),
   ("PayloadIdentifier", Value.vstr (tlit (branded_id uuid2))),
   ("PayloadRemovalDisallowed", Value.vbool false),
   ("PayloadType", Value.vstr (tlit "Configuration")),
   ("PayloadUUID", Value.vstr (tlit uuid2)),
   ("PayloadVersion", Value.vint 1)]

mutual

/-- `_sanitise` from apple.py, iterating over the entries of one dict in
insertion order: a `None` value raises `TypeError` naming the key; a
list value is sanitised element-wise; a dict value is sanitised
recursively; a string value is replaced by its placeholder expansion;
booleans and integers are left alone. -/
def sanitiseEntries (local_part domain : String) :
    List (String × Value) → Except Err (List (String × Value))
  | [] => Except.ok []
  | (k, v) :: rest =>
      match sanitiseEntry local_part domain k v with
      | Except.error e => Except.error e
      | Except.ok v2 =>
          match sanitiseEntries local_part domain rest with
          | Except.error e => Except.error e
          | Except.ok rest2 => Except.ok ((k, v2) :: rest2)

/-- The body of `_sanitise`'s loop for one key/value pair. -/
def sanitiseEntry (local_part domain : String) (k : String) :
    Value → Except Err Value
  | Value.vnull =>
      Except.error (Err.typeError ("Missing value for payload key \"" ++ k ++ "\""))
  | Value.vlist vs =>
      match sanitiseList local_part domain vs with
      | Except.error e => Except.error e
      | Except.ok vs2 => Except.ok (Value.vlist vs2)
  | Value.vdict es =>
      match sanitiseEntries local_part domain es with
      | Except.error e => Except.error e
      | Except.ok es2 => Except.ok (Value.vdict es2)
  | Value.vstr t => Except.ok (Value.vstr (expand_placeholders t local_part domain))
  | v => Except.ok v

/-- `_sanitise` applied to each element of a list value: the source
calls `_sanitise(v, ...)` on every element, which presupposes the
element is a dict and raises `AttributeError` otherwise. -/
def sanitiseList (local_part domain : String) :
    List Value → Except Err (List Value)
  | [] => Except.ok []
  | Value.vdict es :: rest =>
      match sanitiseEntries local_part domain es with
      | Except.error e => Except.error e
      | Except.ok es2 =>
          match sanitiseList local_part domain rest with
          | Except.error e => Except.error e
          | Except.ok rest2 => Except.ok (Value.vdict es2 :: rest2)
  | _ :: _ => Except.error Err.attributeError

end

/-- An XML element as built through `xml.etree.ElementTree`: a tag,
attributes, optional text and the list of child elements (appended by
`SubElement` in order). -/
inductive Element where
  | mk : String → List (String × String) → Option String → List Element → Element
deriving Repr

/-- The tag of an element. -/
def Element.tag : Element → String
  | Element.mk t _ _ _ => t

/-- The children of an element. -/
def Element.children : Element → List Element
  | Element.mk _ _ _ ch => ch

/-- A `<key>k</key>` element as produced by the three leaf helpers in
apple.py. -/
def keyElement (k : String) : Element := Element.mk "key" [] (some k) []

/-- `_bool_element` from apple.py: the two elements it appends to the
parent (`<key>` and `<true/>` or `<false/>`). -/
def bool_element (k : String) (value : Bool) : List Element :=
  [keyElement k, Element.mk (if value then "true" else "false") [] none []]

/-- `_int_element` from apple.py: `<key>` plus `<integer>` with the
string-formatted value. -/
def int_element (k : String) (value : Int) : List Element :=
  [keyElement k, Element.mk "integer" [] (some (toString value)) []]

/-- `_str_element` from apple.py: `<key>` plus `<string>` holding the
rendered value. -/
def str_element (k : String) (value : Template) : List Element :=
  [keyElement k, Element.mk "string" [] (some value.render) []]

mutual

/-- `_subtree` from apple.py: the list of elements appended to the
parent for one key/value pair.  Note that the dict branch appends only
a `<dict>` container (no `<key>` element), and that the list branch
converts every element with the fixed key `dunno`. -/
def subtree (key : String) : Value → List Element
  | Value.vbool b => bool_element key b
  | Value.vdict es => [Element.mk "dict" [] none (subtreeEntries es)]
  | Value.vint n => int_element key n
  | Value.vlist vs =>
      [keyElement key, Element.mk "array" [] none (subtreeList vs)]
  | Value.vstr t => str_element key t
  | Value.vnull => [keyElement key, Element.mk "string" [] none []]

/-- The children a dict value contributes: the concatenation, in
insertion order, of the element groups of its entries. -/
def subtreeEntries : List (String × Value) → List Element
  | [] => []
  | (k, v) :: rest => subtree k v ++ subtreeEntries rest

/-- The children an array contributes: each element is converted with
the fixed placeholder key `dunno`. -/
def subtreeList : List Value → List Element
  | [] => []
  | v :: rest => subtree "dunno" v ++ subtreeList rest

end

/-- Render one attribute as ` k="v"`. -/
def renderAttr (p : String × String) : String :=
  " " ++ p.1 ++ "=\x22" ++ p.2 ++ "\x22"

mutual

/-- Modelled from the spec: the external XML serializer
(`xml.etree.ElementTree.tostring`) renders an element as markup text. -/
def Element.toXml : Element → String
  | Element.mk tag attrs text ch =>
      "<" ++ tag ++ String.join (attrs.map renderAttr) ++ ">" ++
        (match text with
         | some s => s
         | none => "") ++
        Element.listToXml ch ++ "</" ++ tag ++ ">"

/-- Render a list of elements in order. -/
def Element.listToXml : List Element → String
  | [] => ""
  | e :: rest => Element.toXml e ++ Element.listToXml rest

end

/-- Modelled from the spec: `tostring(plist, 'utf-8')` prepends the XML
declaration to the rendered document. -/
def tostring (e : Element) : String :=
  "<?xml version='1.0' encoding='utf-8'?>" ++ Element.toXml e

/-- The body of `client_config`'s per-server loop in apple.py: check the
server type against `TYPE_DIRECTION_MAP`, then assign host name, port
and user name, then map the authentication kind (raising
`InvalidAuthenticationType` before the remaining assignments when it is
unrecognized), then assign authentication and SSL flag. -/
def fill_server (inner : List (String × Value)) (server : Server) :
    Except Err (List (String × Value)) :=
  match TYPE_DIRECTION_MAP.lookup server.type with
  | none =>
      Except.error (Err.invalidServerType
        ("Invalid server type \"" ++ server.type ++ "\""))
  | some direction =>
      let i1 := dictSet inner (direction ++ "MailServerHostName") (Value.vstr server.name)
      let i2 := dictSet i1 (direction ++ "MailServerPortNumber") (Value.vint server.port)
      let i3 := dictSet i2 (direction ++ "MailServerUsername") (Value.vstr server.user_name)
      match map_authentication server with
      | Except.error e => Except.error e
      | Except.ok auth =>
          let i4 := dictSet i3 (direction ++ "MailServerAuthentication")
            (Value.vstr (tlit auth))
          Except.ok (dictSet i4 (direction ++ "MailServerUseSSL")
            (Value.vbool (map_socket_type server)))

/-- The per-server loop of `client_config`, over the domain's servers in
order. -/
def fill_servers (inner : List (String × Value)) :
    List Server → Except Err (List (String × Value))
  | [] => Except.ok inner
  | s :: rest =>
      match fill_server inner s with
      | Except.error e => Except.error e
      | Except.ok inner2 => fill_servers inner2 rest

/-- The realname kept by step 7 of `client_config`: the Python test
`if lookup_result and lookup_result.cn` overrides the caller-supplied
realname only when a lookup happened and its common name is truthy
(present and non-empty). -/
def effective_realname (lookup_result : Option LookupResult) (realname : String) :
    String :=
  match lookup_result with
  | some r =>
      match r.cn with
      | some c => if c = "" then realname else c
      | none => realname
  | none => realname

/-- Steps 5–8 of `client_config`: build the payload, fill it per server,
resolve the realname and sanitise the outer tree. -/
def client_config_rest (domain : Domain) (lookup_result : Option LookupResult)
    (uuid1 uuid2 local_part domain_part realname : String) :
    Except Err (Option (List (String × Value))) :=
  match fill_servers (payload_inner local_part domain_part uuid1) domain.servers with
  | Except.error e => Except.error e
  | Except.ok inner2 =>
      let inner3 := dictSet inner2 "EmailAccountName"
        (Value.vstr (tlit (effective_realname lookup_result realname)))
      match sanitiseEntries local_part domain_part
          (payload_outer domain_part uuid2 inner3) with
      | Except.error e => Except.error e
      | Except.ok outer2 => Except.ok (some outer2)

/-- `AppleGenerator.client_config` from apple.py, up to (but not
including) XML serialization: resolve the domain, provider and servers,
optionally perform the directory lookup (short-circuiting to `none` on
a no-match), build and fill the payload, resolve the realname and
sanitise the outer tree.  `Except.ok none` is the empty-document
short-circuit; `Except.ok (some outer)` carries the sanitised outer
dict that `client_config` serializes. -/
def client_config_core (db : List Domain) (client : Ldapserver → String → LookupResult)
    (uuid1 uuid2 local_part domain_part realname _password : String) :
    Except Err (Option (List (String × Value))) :=
  match db.find? (fun d => d.name = domain_part) with
  | none => Except.error (Err.domainNotFound ("Domain \"" ++ domain_part ++ "\" not found"))
  | some domain =>
      match domain.provider with
      | none =>
          Except.error (Err.noProviderForDomain
            ("No provider for domain \"" ++ domain_part ++ "\""))
      | some _ =>
          if domain.servers.isEmpty then
            Except.error (Err.noServersForDomain
              ("No servers for domain \"" ++ domain_part ++ "\""))
          else
            match (match domain.ldapserver with
                   | some ls =>
                       (ldap_lookup client (local_part ++ "@" ++ domain_part) ls).map some
                   | none => Except.ok none : Except Err (Option LookupResult)) with
            | Except.error e => Except.error e
            | Except.ok (some r) =>
                if r.status = LStatus.noMatch then
                  Except.ok none
                else
                  client_config_rest domain (some r) uuid1 uuid2 local_part domain_part realname
            | Except.ok none =>
                client_config_rest domain none uuid1 uuid2 local_part domain_part realname

/-- `AppleGenerator.client_config` from apple.py: the document text, an
empty string for a directory no-match. -/
def client_config (db : List Domain) (client : Ldapserver → String → LookupResult)
    (uuid1 uuid2 local_part domain_part realname password : String) :
    Except Err String :=
  match client_config_core db client uuid1 uuid2 local_part domain_part realname password with
  | Except.error e => Except.error e
  | Except.ok none => Except.ok ""
  | Except.ok (some outer2) =>
      Except.ok (tostring (Element.mk "plist" [("version", "1.0")] none
        (subtree "" (Value.vdict outer2))))

mutual

/-- A dict tree is well formed when every list value holds only dict
elements, recursively (the spec's payload-tree data model: lists are
ordered lists of sub-trees). -/
def wfEntries : List (String × Value) → Bool
  | [] => true
  | (_, v) :: rest => wfValue v && wfEntries rest

/-- Well-formedness of one value. -/
def wfValue : Value → Bool
  | Value.vdict es => wfEntries es
  | Value.vlist vs => wfList vs
  | _ => true

/-- Well-formedness of the elements of a list value: each must be a
dict. -/
def wfList : List Value → Bool
  | [] => true
  | Value.vdict es :: rest => wfEntries es && wfList rest
  | _ :: _ => false

end

mutual

/-- The key of the first null value a `_sanitise` traversal of the dict
entries encounters, in traversal order, if any. -/
def firstNullKeyEntries : List (String × Value) → Option String
  | [] => none
  | (k, v) :: rest =>
      match firstNullKeyEntry k v with
      | some k2 => some k2
      | none => firstNullKeyEntries rest

/-- The first null key within one key/value pair. -/
def firstNullKeyEntry (k : String) : Value → Option String
  | Value.vnull => some k
  | Value.vlist vs => firstNullKeyList vs
  | Value.vdict es => firstNullKeyEntries es
  | _ => none

/-- The first null key within the elements of a list value (non-dict
elements contribute nothing; the sanitiser fails on them anyway). -/
def firstNullKeyList : List Value → Option String
  | [] => none
  | Value.vdict es :: rest =>
      match firstNullKeyEntries es with
      | some k => some k
      | none => firstNullKeyList rest
  | _ :: rest => firstNullKeyList rest

end

mutual

/-- Modelled from the spec (§4.2 step 8): the sanitization pass as the
spec describes it, as a pure structural map that expands placeholders
in every string leaf and recurses into nested trees and lists. -/
def expandEntries (local_part domain : String) :
    List (String × Value) → List (String × Value)
  | [] => []
  | (k, v) :: rest =>
      (k, expandValue local_part domain v) :: expandEntries local_part domain rest

/-- Spec-side expansion of one value. -/
def expandValue (local_part domain : String) : Value → Value
  | Value.vstr t => Value.vstr (expand_placeholders t local_part domain)
  | Value.vdict es => Value.vdict (expandEntries local_part domain es)
  | Value.vlist vs => Value.vlist (expandList local_part domain vs)
  | v => v

/-- Spec-side expansion of the elements of a list value. -/
def expandList (local_part domain : String) : List Value → List Value
  | [] => []
  | v :: rest => expandValue local_part domain v :: expandList local_part domain rest

end

mutual

/-- Every string leaf reachable in the dict entries is free of
unexpanded placeholder tokens. -/
def tokenFreeEntries : List (String × Value) → Bool
  | [] => true
  | (_, v) :: rest => tokenFreeValue v && tokenFreeEntries rest

/-- Token-freeness of one value. -/
def tokenFreeValue : Value → Bool
  | Value.vstr t => t.tokenFree
  | Value.vdict es => tokenFreeEntries es
  | Value.vlist vs => tokenFreeList vs
  | _ => true

/-- Token-freeness of the elements of a list value. -/
def tokenFreeList : List Value → Bool
  | [] => true
  | v :: rest => tokenFreeValue v && tokenFreeList rest

end

/-- Whether some element in a list of sibling elements carries the given
tag. -/
def hasTagIn (t : String) (es : List Element) : Bool :=
  es.any (fun e => e.tag = t)

/-- The `EmailAccountName` value inside the inner account dict of a
produced outer tree: the outer tree's first entry is `PayloadContent`
holding a one-element list with the inner dict. -/
def innerAccountName (outer : List (String × Value)) : Option Value :=
  match outer with
  | ("PayloadContent", Value.vlist (Value.vdict i :: _)) :: _ =>
      dictGet "EmailAccountName" i
  | _ => none

/-- The lookup result `client_config` observes for a domain: the
directory client's answer when the domain has a directory server,
nothing otherwise. -/
def lookup_of (client : Ldapserver → String → LookupResult) (email : String)
    (d : Domain) : Option LookupResult :=
  d.ldapserver.map (fun ls => client ls email)

/-- The family of dicts the inner payload moves through: `payload_inner`
with the account-name slot and the ten per-direction slots made
parameters.  Only used to state intermediate lemmas. -/
def innerF (local_part domain uuid : String)
    (ean ia ih ip iss iu oa oh op oss ou : Value) : List (String × Value) :=
  [("EmailAccountDescription", Value.vstr (tlit (local_part ++ "@" ++ domain))),
   ("EmailAccountName", ean),
   ("EmailAccountType", Value.vstr (tlit "EmailTypeIMAP")),
   ("EmailAddress", Value.vstr (tlit (local_part ++ "@" ++ domain))),
   ("IncomingMailServerAuthentication", ia),
   ("IncomingMailServerHostName", ih),
   ("IncomingMailServerPortNumber", ip),
   ("IncomingMailServerUseSSL", iss),
   ("IncomingMailServerUsername", iu),
   ("OutgoingMailServerAuthentication", oa),
   ("OutgoingMailServerHostName", oh),
   ("OutgoingMailServerPortNumber", op),
   ("OutgoingMailServerUseSSL", oss),
   ("OutgoingMailServerUsername", ou),
   ("OutgoingPasswordSameAsIncomingPassword", Value.vbool true),
   ("PayloadDescription",
     Value.vstr (tlit ("Email account configuration for " ++ local_part ++ "@" ++ domain))),
   ("PayloadDisplayName", Value.vstr (tlit domain)),
   ("PayloadIdentifier", Value.vstr (tlit ("com.apple.mail.managed." ++ uuid))),
   ("PayloadType", Value.vstr (tlit "com.apple.mail.managed")),
   ("PayloadUUID", Value.vstr (tlit uuid)),
   ("PayloadVersion", Value.vint 1),
   ("SMIMEEnablePerMessageSwitch", Value.vbool false),
   ("SMIMEEnabled", Value.vbool false),
   ("SMIMEEncryptionEnabled", Value.vbool false),
   ("SMIMESigningEnabled", Value.vbool false),
   ("allowMailDrop", Value.vbool false),
   ("disableMailRecentsSyncing", Value.vbool false)]

/-- Concrete imap server (the spec §8 example). -/
def fxImap : Server :=
  { type := "imap", name := tlit "mail.example.com", port := 993,
    user_name := tlit "alice", authentication := "plain", socket_type := "SSL" }

/-- Concrete smtp server (the spec §8 example). -/
def fxSmtp : Server :=
  { type := "smtp", name := tlit "smtp.example.com", port := 587,
    user_name := tlit "alice", authentication := "plain", socket_type := "STARTTLS" }

/-- Concrete server with an unrecognized type. -/
def fxPop3 : Server :=
  { type := "POP3", name := tlit "pop.example.com", port := 110,
    user_name := tlit "alice", authentication := "plain", socket_type := "SSL" }

/-- Concrete imap server with an unrecognized authentication kind. -/
def fxBadAuth : Server :=
  { type := "imap", name := tlit "mail.example.com", port := 993,
    user_name := tlit "alice", authentication := "CRAM-MD5", socket_type := "SSL" }

/-- Concrete directory server parameters. -/
def fxLdap : Ldapserver :=
  { name := "ldap.example.com", port := 636, use_ssl := true,
    bind_user := "cn=admin,dc=example,dc=com", bind_password := "secret",
    search_base := "dc=example,dc=com", search_filter := "(mail=\x7b0\x7d)",
    attr_uid := "uid", attr_cn := "cn" }

/-- Concrete domain with provider, both server directions and no
directory server. -/
def fxDomain : Domain :=
  { name := "example.com", provider := some { name := "Example Provider" },
    servers := [fxImap, fxSmtp], ldapserver := none }

/-- `fxDomain` with a directory server attached. -/
def fxDomainLdap : Domain :=
  { fxDomain with ldapserver := some fxLdap }

/-- Concrete domain without a provider. -/
def fxDomainNoProvider : Domain :=
  { fxDomain with provider := none }

/-- Concrete domain with a provider but no servers. -/
def fxDomainNoServers : Domain :=
  { fxDomain with servers := [] }

/-- Concrete domain whose only server has an unrecognized type. -/
def fxDomainPop3 : Domain :=
  { fxDomain with servers := [fxPop3] }

/-- Concrete domain with only an smtp server. -/
def fxDomainOnlySmtp : Domain :=
  { fxDomain with servers := [fxSmtp] }

/-- Concrete domain with only an imap server. -/
def fxDomainOnlyImap : Domain :=
  { fxDomain with servers := [fxImap] }

/-- Directory client answering every search with status ok and no
common name. -/
def fxClientPlain : Ldapserver → String → LookupResult :=
  fun _ _ => { status := LStatus.ok, cn := none, uid := none }

/-- Directory client answering every search with status ok and the
common name "Alice LDAP". -/
def fxClientCn : Ldapserver → String → LookupResult :=
  fun _ _ => { status := LStatus.ok, cn := some "Alice LDAP", uid := some "alice" }

/-- Directory client answering every search with status no-match. -/
def fxClientNoMatch : Ldapserver → String → LookupResult :=
  fun _ _ => { status := LStatus.noMatch, cn := none, uid := none }

/-- Directory client whose bind fails (status error). -/
def fxClientError : Ldapserver → String → LookupResult :=
  fun _ _ => { status := LStatus.error, cn := none, uid := none }

/-- The sanitized outer tree produced for `fxDomainLdap` with the
common-name client (an empty list when production fails, which it does
not). -/
def fxOuterCn : List (String × Value) :=
  match client_config_core [fxDomainLdap] fxClientCn "u1" "u2" "alice" "example.com"
      "Alice A." "pw" with
  | Except.ok (some o) => o
  | _ => []

/-! ## Helper lemmas -/

theorem dictGet_cons (k a : String) (v : Value) (rest : List (String × Value)) :
    dictGet k ((a, v) :: rest) = if a = k then some v else dictGet k rest := rfl

theorem map_set_cons (k : String) (v : Value) (a : String) (b : Value)
    (tl : List (String × Value)) :
    ((a, b) :: tl).map (fun p => if p.1 = k then (k, v) else p) =
      (if a = k then (k, v) else (a, b)) ::
        tl.map (fun p => if p.1 = k then (k, v) else p) := rfl

theorem dictGet_map_set_self (k : String) (v : Value) :
    ∀ d : List (String × Value), d.any (fun p => p.1 = k) = true →
      dictGet k (d.map (fun p => if p.1 = k then (k, v) else p)) = some v := by
  intro d
  induction d with
  | nil => intro h; simp at h
  | cons hd tl ih =>
      obtain ⟨a, b⟩ := hd
      intro h
      rw [map_set_cons]
      by_cases hk : a = k
      · rw [if_pos hk, dictGet_cons, if_pos rfl]
      · have htl : tl.any (fun p => p.1 = k) = true := by
          simp only [List.any_cons, Bool.or_eq_true, decide_eq_true_eq] at h
          rcases h with h | h
          · exact absurd h hk
          · exact h
        rw [if_neg hk, dictGet_cons, if_neg hk]
        exact ih htl

theorem dictGet_map_set_ne (k k2 : String) (v : Value) (h : k2 ≠ k) :
    ∀ d : List (String × Value),
      dictGet k2 (d.map (fun p => if p.1 = k then (k, v) else p)) =
        dictGet k2 d := by
  intro d
  induction d with
  | nil => simp [dictGet]
  | cons hd tl ih =>
      obtain ⟨a, b⟩ := hd
      rw [map_set_cons]
      by_cases hk : a = k
      · have h3 : ¬(a = k2) := by rw [hk]; exact fun e => h e.symm
        have h4 : ¬(k = k2) := fun e => h e.symm
        rw [if_pos hk, dictGet_cons, if_neg h4, dictGet_cons, if_neg h3]
        exact ih
      · by_cases hk2 : a = k2
        · rw [if_neg hk, dictGet_cons, if_pos hk2, dictGet_cons, if_pos hk2]
        · rw [if_neg hk, dictGet_cons, if_neg hk2, dictGet_cons, if_neg hk2]
          exact ih

theorem dictGet_append_self (k : String) (v : Value) :
    ∀ d : List (String × Value), d.any (fun p => p.1 = k) = false →
      dictGet k (d ++ [(k, v)]) = some v := by
  intro d
  induction d with
  | nil => intro _; rw [List.nil_append, dictGet_cons, if_pos rfl]
  | cons hd tl ih =>
      obtain ⟨a, b⟩ := hd
      intro h
      simp only [List.any_cons, Bool.or_eq_false_iff] at h
      have hne : ¬(a = k) := of_decide_eq_false h.1
      rw [List.cons_append, dictGet_cons, if_neg hne]
      exact ih h.2

theorem dictGet_append_ne (k k2 : String) (v : Value) (h : k2 ≠ k) :
    ∀ d : List (String × Value),
      dictGet k2 (d ++ [(k, v)]) = dictGet k2 d := by
  intro d
  induction d with
  | nil =>
      have h2 : ¬(k = k2) := fun e => h e.symm
      rw [List.nil_append, dictGet_cons, if_neg h2]
  | cons hd tl ih =>
      obtain ⟨a, b⟩ := hd
      by_cases hk2 : a = k2
      · rw [List.cons_append, dictGet_cons, if_pos hk2, dictGet_cons, if_pos hk2]
      · rw [List.cons_append, dictGet_cons, if_neg hk2, dictGet_cons, if_neg hk2]
        exact ih

/-- Looking up the key just assigned by `dictSet` yields the assigned
value. -/
theorem dictSet_get_self (d : List (String × Value)) (k : String) (v : Value) :
    dictGet k (dictSet d k v) = some v := by
  unfold dictSet
  cases ha : d.any (fun p => p.1 = k) with
  | true => simpa [ha] using dictGet_map_set_self k v d ha
  | false => simpa [ha] using dictGet_append_self k v d ha

/-- `dictSet` does not change the value found at any other key. -/
theorem dictSet_get_ne (d : List (String × Value)) (k k2 : String) (v : Value)
    (h : k2 ≠ k) : dictGet k2 (dictSet d k v) = dictGet k2 d := by
  unfold dictSet
  cases ha : d.any (fun p => p.1 = k) with
  | true => simpa [ha] using dictGet_map_set_ne k k2 v h d
  | false => simpa [ha] using dictGet_append_ne k k2 v h d

/-- On success, `sanitiseEntries` turns a string binding into its
placeholder expansion at the same key. -/
theorem sanitiseEntries_get_vstr (lp dm : String) :
    ∀ (es es2 : List (String × Value)) (k : String) (t : Template),
      sanitiseEntries lp dm es = Except.ok es2 →
      dictGet k es = some (Value.vstr t) →
      dictGet k es2 = some (Value.vstr (expand_placeholders t lp dm)) := by
  intro es
  induction es with
  | nil => intro es2 k t h hl; simp [dictGet] at hl
  | cons hd tl ih =>
      intro es2 k t h hl
      obtain ⟨k0, v0⟩ := hd
      rw [sanitiseEntries] at h
      cases h1 : sanitiseEntry lp dm k0 v0 with
      | error e => rw [h1] at h; exact absurd h (by simp)
      | ok v2 =>
          rw [h1] at h
          cases h2 : sanitiseEntries lp dm tl with
          | error e => rw [h2] at h; exact absurd h (by simp)
          | ok tl2 =>
              rw [h2] at h
              simp only [Except.ok.injEq] at h
              subst h
              by_cases hk : k0 = k
              · simp only [dictGet, if_pos hk] at hl ⊢
                simp only [Option.some.injEq] at hl
                subst hl
                rw [sanitiseEntry] at h1
                simp only [Except.ok.injEq] at h1
                exact congrArg some h1.symm
              · simp only [dictGet, if_neg hk] at hl ⊢
                exact ih tl2 k t h2 hl

/-! ## Claim theorems -/

/-- C6: the socket-kind-to-SSL-flag mapping is a total function on the
server's socket type: it returns true exactly for the values "SSL" and
"STARTTLS" and false for every other value, raising nothing. -/
theorem map_socket_type_total (server : Server) :
    map_socket_type server = true ↔
      server.socket_type = "SSL" ∨ server.socket_type = "STARTTLS" := by
  unfold map_socket_type
  by_cases h : server.socket_type = "SSL" ∨ server.socket_type = "STARTTLS" <;>
    simp [h]

/-- C4: the shared directory-lookup helper raises `LdapLookupError` (the
spec's DirectoryLookupError) exactly when the client's result status is
the error status, and otherwise returns the structured result
unchanged. -/
theorem ldap_lookup_error_iff (client : Ldapserver → String → LookupResult)
    (email : String) (server : Ldapserver) :
    (ldap_lookup client email server =
        Except.error (Err.ldapLookupError "LDAP bind failed") ↔
      (client server email).status = LStatus.error) ∧
    ((client server email).status ≠ LStatus.error →
      ldap_lookup client email server = Except.ok (client server email)) := by
  unfold ldap_lookup
  constructor
  · by_cases h : (client server email).status = LStatus.error <;> simp [h]
  · intro h; simp [h]

/-- Witness for C4 at a concrete failing client and a concrete healthy
client result. -/
theorem ldap_lookup_error_iff_witness :
    (ldap_lookup fxClientError "alice@example.com" fxLdap =
        Except.error (Err.ldapLookupError "LDAP bind failed") ↔
      (fxClientError fxLdap "alice@example.com").status = LStatus.error) ∧
    ((fxClientCn fxLdap "alice@example.com").status ≠ LStatus.error →
      ldap_lookup fxClientCn "alice@example.com" fxLdap =
        Except.ok (fxClientCn fxLdap "alice@example.com")) :=
  ⟨(ldap_lookup_error_iff fxClientError "alice@example.com" fxLdap).1,
   (ldap_lookup_error_iff fxClientCn "alice@example.com" fxLdap).2⟩

/-- Resolution path of `client_config_core` when the domain resolves
and has no directory server. -/
theorem core_no_ldap (db : List Domain) (client : Ldapserver → String → LookupResult)
    (u1 u2 lp dp rn pw : String) (d : Domain)
    (hf : db.find? (fun x => x.name = dp) = some d)
    (hp : d.provider.isSome = true)
    (hs : d.servers.isEmpty = false)
    (hl : d.ldapserver = none) :
    client_config_core db client u1 u2 lp dp rn pw =
      client_config_rest d none u1 u2 lp dp rn := by
  obtain ⟨p, hpv⟩ := Option.isSome_iff_exists.mp hp
  simp [client_config_core, hf, hpv, hs, hl]

/-- Resolution path of `client_config_core` when the domain resolves,
has a directory server and the lookup status is ok. -/
theorem core_ldap_ok (db : List Domain) (client : Ldapserver → String → LookupResult)
    (u1 u2 lp dp rn pw : String) (d : Domain) (ls : Ldapserver)
    (hf : db.find? (fun x => x.name = dp) = some d)
    (hp : d.provider.isSome = true)
    (hs : d.servers.isEmpty = false)
    (hl : d.ldapserver = some ls)
    (hst : (client ls (lp ++ "@" ++ dp)).status = LStatus.ok) :
    client_config_core db client u1 u2 lp dp rn pw =
      client_config_rest d (some (client ls (lp ++ "@" ++ dp))) u1 u2 lp dp rn := by
  obtain ⟨p, hpv⟩ := Option.isSome_iff_exists.mp hp
  simp [client_config_core, hf, hpv, hs, hl, ldap_lookup, hst, Except.map]

/-! ## Claim theorems, resolution and short-circuit -/

/-- C1: when the resolved domain has a directory server and the lookup
for local@domain answers no-match, `client_config` returns the empty
string and raises nothing, whatever the local part, realname and
password are. -/
theorem client_config_no_match (db : List Domain)
    (client : Ldapserver → String → LookupResult)
    (u1 u2 lp dp rn pw : String) (d : Domain) (ls : Ldapserver)
    (hf : db.find? (fun x => x.name = dp) = some d)
    (hp : d.provider.isSome = true)
    (hs : d.servers.isEmpty = false)
    (hl : d.ldapserver = some ls)
    (hst : (client ls (lp ++ "@" ++ dp)).status = LStatus.noMatch) :
    client_config db client u1 u2 lp dp rn pw = Except.ok "" := by
  obtain ⟨p, hpv⟩ := Option.isSome_iff_exists.mp hp
  have hcore : client_config_core db client u1 u2 lp dp rn pw = Except.ok none := by
    simp [client_config_core, hf, hpv, hs, hl, ldap_lookup, hst, Except.map]
  unfold client_config
  rw [hcore]

/-- Witness for C1: a concrete domain with a directory server and a
client answering no-match yields the empty document. -/
theorem client_config_no_match_witness :
    (fxDomainLdap.provider.isSome = true ∧
      fxDomainLdap.servers.isEmpty = false ∧
      (fxClientNoMatch fxLdap "alice@example.com").status = LStatus.noMatch) ∧
    client_config [fxDomainLdap] fxClientNoMatch "u1" "u2" "alice" "example.com"
      "Alice A." "pw" = Except.ok "" :=
  ⟨⟨rfl, rfl, rfl⟩,
   client_config_no_match [fxDomainLdap] fxClientNoMatch "u1" "u2" "alice"
     "example.com" "Alice A." "pw" fxDomainLdap fxLdap rfl rfl rfl rfl rfl⟩

/-- C2: `client_config` resolves domain, provider and servers in order:
a domain name absent from the data model raises `DomainNotFound`; a
present domain without provider raises `NoProviderForDomain`; a present
domain with a provider but no servers raises `NoServersForDomain`. -/
theorem client_config_resolution_errors (db : List Domain)
    (client : Ldapserver → String → LookupResult) (u1 u2 lp dp rn pw : String) :
    ((∀ d ∈ db, d.name ≠ dp) →
      client_config db client u1 u2 lp dp rn pw =
        Except.error (Err.domainNotFound ("Domain \"" ++ dp ++ "\" not found"))) ∧
    (∀ d : Domain, db.find? (fun x => x.name = dp) = some d →
      d.provider = none →
      client_config db client u1 u2 lp dp rn pw =
        Except.error (Err.noProviderForDomain
          ("No provider for domain \"" ++ dp ++ "\""))) ∧
    (∀ (d : Domain) (p : Provider), db.find? (fun x => x.name = dp) = some d →
      d.provider = some p →
      d.servers = [] →
      client_config db client u1 u2 lp dp rn pw =
        Except.error (Err.noServersForDomain
          ("No servers for domain \"" ++ dp ++ "\""))) := by
  refine ⟨?_, ?_, ?_⟩
  · intro habs
    have hf : db.find? (fun x => x.name = dp) = none := by
      rw [List.find?_eq_none]
      intro d hd
      simpa using habs d hd
    simp [client_config, client_config_core, hf]
  · intro d hf hp
    simp [client_config, client_config_core, hf, hp]
  · intro d p hf hp hserv
    simp [client_config, client_config_core, hf, hp, hserv]

/-- Witness for C2: concrete databases exercising each of the three
resolution failures. -/
theorem client_config_resolution_errors_witness :
    client_config [fxDomain] fxClientPlain "u1" "u2" "alice" "nosuch.example"
      "Alice A." "pw" =
      Except.error (Err.domainNotFound "Domain \"nosuch.example\" not found") ∧
    client_config [fxDomainNoProvider] fxClientPlain "u1" "u2" "alice" "example.com"
      "Alice A." "pw" =
      Except.error (Err.noProviderForDomain "No provider for domain \"example.com\"") ∧
    client_config [fxDomainNoServers] fxClientPlain "u1" "u2" "alice" "example.com"
      "Alice A." "pw" =
      Except.error (Err.noServersForDomain "No servers for domain \"example.com\"") :=
  ⟨(client_config_resolution_errors [fxDomain] fxClientPlain "u1" "u2" "alice"
      "nosuch.example" "Alice A." "pw").1 (by decide),
   (client_config_resolution_errors [fxDomainNoProvider] fxClientPlain "u1" "u2"
      "alice" "example.com" "Alice A." "pw").2.1 fxDomainNoProvider (by decide) rfl,
   (client_config_resolution_errors [fxDomainNoServers] fxClientPlain "u1" "u2"
      "alice" "example.com" "Alice A." "pw").2.2 fxDomainNoServers
      { name := "Example Provider" } (by decide) rfl rfl⟩

/-- C3: during per-server fill, a server whose type is outside
{imap, smtp} raises `InvalidServerType`; a server with a recognized
type but an authentication kind outside {none, NTLM, plain} raises
`InvalidAuthenticationType`; recognized kinds map as none →
EmailAuthNone, NTLM → EmailAuthNTLM, plain → EmailAuthPassword; and a
fill-loop error surfaces unchanged from `client_config`. -/
theorem fill_invalid_type_auth :
    (∀ (inner : List (String × Value)) (s : Server),
      s.type ≠ "imap" → s.type ≠ "smtp" →
      fill_server inner s =
        Except.error (Err.invalidServerType
          ("Invalid server type \"" ++ s.type ++ "\""))) ∧
    (∀ (inner : List (String × Value)) (s : Server),
      (s.type = "imap" ∨ s.type = "smtp") →
      s.authentication ≠ "none" → s.authentication ≠ "NTLM" →
      s.authentication ≠ "plain" →
      fill_server inner s =
        Except.error (Err.invalidAuthenticationType
          ("Invalid authentication type \"" ++ s.authentication ++ "\""))) ∧
    (∀ s : Server,
      (s.authentication = "none" →
        map_authentication s = Except.ok "EmailAuthNone") ∧
      (s.authentication = "NTLM" →
        map_authentication s = Except.ok "EmailAuthNTLM") ∧
      (s.authentication = "plain" →
        map_authentication s = Except.ok "EmailAuthPassword")) ∧
    (∀ (db : List Domain) (client : Ldapserver → String → LookupResult)
      (u1 u2 lp dp rn pw : String) (d : Domain) (e : Err),
      db.find? (fun x => x.name = dp) = some d →
      d.provider.isSome = true →
      d.servers.isEmpty = false →
      d.ldapserver = none →
      fill_servers (payload_inner lp dp u1) d.servers = Except.error e →
      client_config db client u1 u2 lp dp rn pw = Except.error e) := by
  refine ⟨?_, ?_, ?_, ?_⟩
  · intro inner s h1 h2
    have b1 : (s.type == "imap") = false := beq_eq_false_iff_ne.mpr h1
    have b2 : (s.type == "smtp") = false := beq_eq_false_iff_ne.mpr h2
    simp [fill_server, TYPE_DIRECTION_MAP, List.lookup, b1, b2]
  · intro inner s ht h1 h2 h3
    have b1 : (s.authentication == "none") = false := beq_eq_false_iff_ne.mpr h1
    have b2 : (s.authentication == "NTLM") = false := beq_eq_false_iff_ne.mpr h2
    have b3 : (s.authentication == "plain") = false := beq_eq_false_iff_ne.mpr h3
    rcases ht with ht | ht <;>
      simp [fill_server, TYPE_DIRECTION_MAP, List.lookup, ht,
        map_authentication, AUTH_MAP, b1, b2, b3]
  · intro s
    refine ⟨?_, ?_, ?_⟩ <;> intro h <;>
      simp [map_authentication, AUTH_MAP, List.lookup, h]
  · intro db client u1 u2 lp dp rn pw d e hf hp hs hl hfill
    have hcore := core_no_ldap db client u1 u2 lp dp rn pw d hf hp hs hl
    unfold client_config
    rw [hcore]
    unfold client_config_rest
    rw [hfill]

/-- Witness for C3: a pop3-typed server, a CRAM-MD5-authenticated imap
server, the three recognized kinds at a concrete server, and the
concrete database whose only server is pop3-typed. -/
theorem fill_invalid_type_auth_witness :
    fill_server [] fxPop3 =
      Except.error (Err.invalidServerType "Invalid server type \"POP3\"") ∧
    fill_server [] fxBadAuth =
      Except.error (Err.invalidAuthenticationType
        "Invalid authentication type \"CRAM-MD5\"") ∧
    map_authentication fxImap = Except.ok "EmailAuthPassword" ∧
    client_config [fxDomainPop3] fxClientPlain "u1" "u2" "alice" "example.com"
      "Alice A." "pw" =
      Except.error (Err.invalidServerType "Invalid server type \"POP3\"") :=
  ⟨fill_invalid_type_auth.1 [] fxPop3 (by decide) (by decide),
   fill_invalid_type_auth.2.1 [] fxBadAuth (Or.inl rfl) (by decide) (by decide)
     (by decide),
   (fill_invalid_type_auth.2.2.1 fxImap).2.2 rfl,
   fill_invalid_type_auth.2.2.2 [fxDomainPop3] fxClientPlain "u1" "u2" "alice"
     "example.com" "Alice A." "pw" fxDomainPop3
     (Err.invalidServerType "Invalid server type \"POP3\"")
     (by decide) rfl rfl rfl rfl⟩

/-! ## Claim theorems, serialization -/

/-- C9: a boolean leaf is serialized as a key element followed by a
true/false tag; no integer tag is produced for it, even though Python
booleans are integers. -/
theorem subtree_bool_not_integer (k : String) (b : Bool) :
    subtree k (Value.vbool b) =
      [keyElement k, Element.mk (if b then "true" else "false") [] none []] ∧
    hasTagIn "integer" (subtree k (Value.vbool b)) = false := by
  cases b <;> exact ⟨rfl, rfl⟩

/-- C8 counterexample: a mapping value produces only a container
element, not a key/container pair (a single element whose tag is not
`key`), and a non-mapping array element is converted with the
placeholder key `dunno`, contradicting the claim that mappings produce
a key/container pair and that array elements carry no key. -/
theorem subtree_mapping_key_counterexample :
    subtree "k" (Value.vdict [("a", Value.vstr (tlit "x"))]) =
      [Element.mk "dict" [] none
        [keyElement "a", Element.mk "string" [] (some "x") []]] ∧
    (subtree "k" (Value.vdict [("a", Value.vstr (tlit "x"))])).length ≠ 2 ∧
    hasTagIn "key" (subtree "k" (Value.vdict [("a", Value.vstr (tlit "x"))])) =
      false ∧
    subtree "k" (Value.vlist [Value.vstr (tlit "x")]) =
      [keyElement "k", Element.mk "array" [] none
        [keyElement "dunno", Element.mk "string" [] (some "x") []]] :=
  ⟨rfl, by decide, rfl, rfl⟩

/-- C8 amended: serialization produces one element group per node and
preserves insertion order; booleans produce a key element plus a
true/false tag, integers a key element plus an integer tag with the
string-formatted value, strings a key element plus a string tag, null
leaves a key element plus an empty string tag; a mapping produces only
a container element (no key element) wrapping the recursive conversion
of its entries in order; a list produces a key element plus an array
container whose elements are each converted with the fixed placeholder
key `dunno` (so mapping elements carry no key, non-mapping elements
carry that placeholder key). -/
theorem subtree_characterization :
    (∀ (k : String) (b : Bool), subtree k (Value.vbool b) =
      [keyElement k, Element.mk (if b then "true" else "false") [] none []]) ∧
    (∀ (k : String) (n : Int), subtree k (Value.vint n) =
      [keyElement k, Element.mk "integer" [] (some (toString n)) []]) ∧
    (∀ (k : String) (t : Template), subtree k (Value.vstr t) =
      [keyElement k, Element.mk "string" [] (some t.render) []]) ∧
    (∀ (k : String), subtree k Value.vnull =
      [keyElement k, Element.mk "string" [] none []]) ∧
    (∀ (k : String) (es : List (String × Value)), subtree k (Value.vdict es) =
      [Element.mk "dict" [] none (subtreeEntries es)]) ∧
    (∀ (k : String) (vs : List Value), subtree k (Value.vlist vs) =
      [keyElement k, Element.mk "array" [] none (subtreeList vs)]) ∧
    (∀ (k : String) (v : Value) (rest : List (String × Value)),
      subtreeEntries ((k, v) :: rest) = subtree k v ++ subtreeEntries rest) ∧
    (∀ (v : Value) (rest : List Value),
      subtreeList (v :: rest) = subtree "dunno" v ++ subtreeList rest) :=
  ⟨fun _ _ => rfl, fun _ _ => rfl, fun _ _ => rfl, fun _ => rfl,
   fun _ _ => rfl, fun _ _ => rfl, fun _ _ _ => rfl, fun _ _ => rfl⟩

/-! ## Account-name resolution (C5) -/

theorem expand_tlit (s lp dp : String) :
    expand_placeholders (tlit s) lp dp = tlit s := rfl

theorem direction_cases (t dir : String)
    (h : TYPE_DIRECTION_MAP.lookup t = some dir) :
    dir = "Incoming" ∨ dir = "Outgoing" := by
  cases h1 : (t == "imap") with
  | true =>
      left
      simp [TYPE_DIRECTION_MAP, List.lookup, h1] at h
      exact h.symm
  | false =>
      cases h2 : (t == "smtp") with
      | true =>
          right
          simp [TYPE_DIRECTION_MAP, List.lookup, h1, h2] at h
          exact h.symm
      | false =>
          simp [TYPE_DIRECTION_MAP, List.lookup, h1, h2] at h

/-- The per-server fill never touches the `EmailAccountName` binding:
both directions only assign `MailServer...` keys. -/
theorem fill_servers_preserves_ean :
    ∀ (servers : List Server) (inner inner2 : List (String × Value)),
      fill_servers inner servers = Except.ok inner2 →
      dictGet "EmailAccountName" inner2 = dictGet "EmailAccountName" inner := by
  intro servers
  induction servers with
  | nil =>
      intro inner inner2 h
      rw [fill_servers] at h
      simp only [Except.ok.injEq] at h
      rw [h]
  | cons s rest ih =>
      intro inner inner2 h
      rw [fill_servers] at h
      cases hfs : fill_server inner s with
      | error e => rw [hfs] at h; exact absurd h (by simp)
      | ok i2 =>
          rw [hfs] at h
          rw [ih i2 inner2 h]
          unfold fill_server at hfs
          cases hdir : TYPE_DIRECTION_MAP.lookup s.type with
          | none => rw [hdir] at hfs; exact absurd hfs (by simp)
          | some dir =>
              rw [hdir] at hfs
              cases hauth : map_authentication s with
              | error e => rw [hauth] at hfs; exact absurd hfs (by simp)
              | ok a =>
                  rw [hauth] at hfs
                  simp only [Except.ok.injEq] at hfs
                  rw [← hfs]
                  rcases direction_cases s.type dir hdir with hd | hd <;> subst hd <;>
                    rw [dictSet_get_ne _ _ _ _ (by decide),
                      dictSet_get_ne _ _ _ _ (by decide),
                      dictSet_get_ne _ _ _ _ (by decide),
                      dictSet_get_ne _ _ _ _ (by decide),
                      dictSet_get_ne _ _ _ _ (by decide)]

/-- Sanitising the outer tree succeeds only by sanitising the inner
dict carried under `PayloadContent`, which stays the first entry. -/
theorem sanitise_outer_shape (lp dp u2 : String)
    (inner o : List (String × Value))
    (h : sanitiseEntries lp dp (payload_outer dp u2 inner) = Except.ok o) :
    ∃ inner2 rest2, sanitiseEntries lp dp inner = Except.ok inner2 ∧
      o = ("PayloadContent", Value.vlist [Value.vdict inner2]) :: rest2 := by
  unfold payload_outer at h
  rw [sanitiseEntries] at h
  have hc : sanitiseEntry lp dp "PayloadContent" (Value.vlist [Value.vdict inner]) =
      (sanitiseEntries lp dp inner).map (fun i2 => Value.vlist [Value.vdict i2]) := by
    cases hi : sanitiseEntries lp dp inner <;>
      simp [sanitiseEntry, sanitiseList, hi, Except.map]
  rw [hc] at h
  cases hi : sanitiseEntries lp dp inner with
  | error e => rw [hi] at h; exact absurd h (by simp [Except.map])
  | ok inner2 =>
      rw [hi] at h
      simp only [Except.map] at h
      cases hr : sanitiseEntries lp dp
          [("PayloadDisplayName", Value.vstr (tlit ("Mail account " ++ dp))),
           ("PayloadIdentifier", Value.vstr (tlit (branded_id u2))),
           ("PayloadRemovalDisallowed", Value.vbool false),
           ("PayloadType", Value.vstr (tlit "Configuration")),
           ("PayloadUUID", Value.vstr (tlit u2)),
           ("PayloadVersion", Value.vint 1)] with
      | error e => rw [hr] at h; exact absurd h (by simp)
      | ok rest2 =>
          rw [hr] at h
          simp only [Except.ok.injEq] at h
          exact ⟨inner2, rest2, rfl, h.symm⟩

/-- Steps 5–8 deliver the effective realname: the sanitised outer tree
binds `EmailAccountName` (inside the inner dict) to the resolved
realname. -/
theorem rest_account_name (d : Domain) (lr : Option LookupResult)
    (u1 u2 lp dp rn : String) (o : List (String × Value))
    (h : client_config_rest d lr u1 u2 lp dp rn = Except.ok (some o)) :
    innerAccountName o = some (Value.vstr (tlit (effective_realname lr rn))) := by
  unfold client_config_rest at h
  cases hfill : fill_servers (payload_inner lp dp u1) d.servers with
  | error e => rw [hfill] at h; exact absurd h (by simp)
  | ok inner2 =>
      rw [hfill] at h
      dsimp only at h
      cases hsan : sanitiseEntries lp dp (payload_outer dp u2
          (dictSet inner2 "EmailAccountName"
            (Value.vstr (tlit (effective_realname lr rn))))) with
      | error e => rw [hsan] at h; exact absurd h (by simp)
      | ok outer2 =>
          rw [hsan] at h
          simp only [Except.ok.injEq, Option.some.injEq] at h
          subst h
          obtain ⟨inner3, rest2, hin, ho⟩ :=
            sanitise_outer_shape lp dp u2 _ outer2 hsan
          rw [ho]
          show dictGet "EmailAccountName" inner3 =
            some (Value.vstr (tlit (effective_realname lr rn)))
          have hget : dictGet "EmailAccountName"
              (dictSet inner2 "EmailAccountName"
                (Value.vstr (tlit (effective_realname lr rn)))) =
              some (Value.vstr (tlit (effective_realname lr rn))) :=
            dictSet_get_self inner2 "EmailAccountName" _
          have := sanitiseEntries_get_vstr lp dp _ inner3 "EmailAccountName"
            (tlit (effective_realname lr rn)) hin hget
          rw [expand_tlit] at this
          exact this

/-- C5: whenever `client_config` produces a document, the document's
`EmailAccountName` equals the directory common name when the lookup
returned a truthy (non-empty) one, and the caller-supplied realname
otherwise (no directory server, or no usable common name). -/
theorem client_config_account_name (db : List Domain)
    (client : Ldapserver → String → LookupResult)
    (u1 u2 lp dp rn pw : String) (d : Domain) (o : List (String × Value))
    (hf : db.find? (fun x => x.name = dp) = some d)
    (hok : client_config_core db client u1 u2 lp dp rn pw = Except.ok (some o)) :
    innerAccountName o =
      some (Value.vstr (tlit
        (effective_realname (lookup_of client (lp ++ "@" ++ dp) d) rn))) := by
  unfold client_config_core at hok
  rw [hf] at hok
  dsimp only at hok
  cases hp : d.provider with
  | none => rw [hp] at hok; exact absurd hok (by simp)
  | some p =>
      rw [hp] at hok
      cases hs : d.servers.isEmpty with
      | true => rw [hs] at hok; exact absurd hok (by simp)
      | false =>
          rw [hs] at hok
          simp only [Bool.false_eq_true, if_false] at hok
          cases hl : d.ldapserver with
          | none =>
              rw [hl] at hok
              dsimp only at hok
              have := rest_account_name d none u1 u2 lp dp rn o hok
              rw [this]
              unfold lookup_of
              rw [hl]
              rfl
          | some ls =>
              rw [hl] at hok
              unfold ldap_lookup at hok
              dsimp only at hok
              cases hst : (client ls (lp ++ "@" ++ dp)).status with
              | error => simp [hst, Except.map] at hok
              | noMatch => simp [hst, Except.map] at hok
              | ok =>
                  simp [hst, Except.map] at hok
                  have := rest_account_name d (some (client ls (lp ++ "@" ++ dp)))
                    u1 u2 lp dp rn o hok
                  rw [this]
                  unfold lookup_of
                  rw [hl]
                  rfl

/-- Witness for C5: the concrete directory-backed domain with a client
answering common name "Alice LDAP" overrides the caller-supplied
realname in the produced document. -/
theorem client_config_account_name_witness :
    innerAccountName fxOuterCn =
      some (Value.vstr (tlit (effective_realname
        (lookup_of fxClientCn ("alice" ++ "@" ++ "example.com") fxDomainLdap)
        "Alice A."))) :=
  client_config_account_name [fxDomainLdap] fxClientCn "u1" "u2" "alice"
    "example.com" "Alice A." "pw" fxDomainLdap fxOuterCn rfl rfl

/-! ## Sanitization exhaustiveness (C7) -/

theorem expand_placeholders_tokenFree (lp dm : String) :
    ∀ t : List Seg, Template.tokenFree (expand_placeholders t lp dm) = true := by
  intro t
  induction t with
  | nil => rfl
  | cons s rest ih =>
      cases s <;>
        simpa [expand_placeholders, Template.tokenFree, List.all_cons] using ih

mutual

/-- Successful sanitization leaves only token-free string leaves, dict
entries case. -/
theorem sanE_tokenFree (lp dm : String) :
    ∀ (es es2 : List (String × Value)),
      sanitiseEntries lp dm es = Except.ok es2 → tokenFreeEntries es2 = true
  | [], es2, h => by
      rw [sanitiseEntries] at h
      simp only [Except.ok.injEq] at h
      rw [← h]; rfl
  | (k, v) :: rest, es2, h => by
      rw [sanitiseEntries] at h
      cases h1 : sanitiseEntry lp dm k v with
      | error e => rw [h1] at h; exact absurd h (by simp)
      | ok v2 =>
          rw [h1] at h
          cases h2 : sanitiseEntries lp dm rest with
          | error e => rw [h2] at h; exact absurd h (by simp)
          | ok rest2 =>
              rw [h2] at h
              simp only [Except.ok.injEq] at h
              rw [← h, tokenFreeEntries, sanV_tokenFree lp dm k v v2 h1,
                sanE_tokenFree lp dm rest rest2 h2]
              rfl

/-- Successful sanitization leaves only token-free string leaves, one
value case. -/
theorem sanV_tokenFree (lp dm : String) :
    ∀ (k : String) (v v2 : Value),
      sanitiseEntry lp dm k v = Except.ok v2 → tokenFreeValue v2 = true
  | k, Value.vnull, v2, h => by
      rw [sanitiseEntry] at h; exact absurd h (by simp)
  | k, Value.vbool b, v2, h => by
      simp only [sanitiseEntry, Except.ok.injEq] at h
      rw [← h]; rfl
  | k, Value.vint n, v2, h => by
      simp only [sanitiseEntry, Except.ok.injEq] at h
      rw [← h]; rfl
  | k, Value.vstr t, v2, h => by
      rw [sanitiseEntry] at h
      simp only [Except.ok.injEq] at h
      rw [← h, tokenFreeValue]
      exact expand_placeholders_tokenFree lp dm t
  | k, Value.vdict es, v2, h => by
      rw [sanitiseEntry] at h
      cases h1 : sanitiseEntries lp dm es with
      | error e => rw [h1] at h; exact absurd h (by simp)
      | ok es2 =>
          rw [h1] at h
          simp only [Except.ok.injEq] at h
          rw [← h, tokenFreeValue]
          exact sanE_tokenFree lp dm es es2 h1
  | k, Value.vlist vs, v2, h => by
      rw [sanitiseEntry] at h
      cases h1 : sanitiseList lp dm vs with
      | error e => rw [h1] at h; exact absurd h (by simp)
      | ok vs2 =>
          rw [h1] at h
          simp only [Except.ok.injEq] at h
          rw [← h, tokenFreeValue]
          exact sanL_tokenFree lp dm vs vs2 h1

/-- Successful sanitization leaves only token-free string leaves, list
elements case. -/
theorem sanL_tokenFree (lp dm : String) :
    ∀ (vs vs2 : List Value),
      sanitiseList lp dm vs = Except.ok vs2 → tokenFreeList vs2 = true
  | [], vs2, h => by
      rw [sanitiseList] at h
      simp only [Except.ok.injEq] at h
      rw [← h]; rfl
  | Value.vnull :: rest, vs2, h => by
      simp [sanitiseList] at h
  | Value.vbool b :: rest, vs2, h => by
      simp [sanitiseList] at h
  | Value.vint n :: rest, vs2, h => by
      simp [sanitiseList] at h
  | Value.vstr t :: rest, vs2, h => by
      simp [sanitiseList] at h
  | Value.vlist vs0 :: rest, vs2, h => by
      simp [sanitiseList] at h
  | Value.vdict es :: rest, vs2, h => by
      rw [sanitiseList] at h
      cases h1 : sanitiseEntries lp dm es with
      | error e => rw [h1] at h; exact absurd h (by simp)
      | ok es2 =>
          rw [h1] at h
          cases h2 : sanitiseList lp dm rest with
          | error e => rw [h2] at h; exact absurd h (by simp)
          | ok rest2 =>
              rw [h2] at h
              simp only [Except.ok.injEq] at h
              rw [← h, tokenFreeList, tokenFreeValue,
                sanE_tokenFree lp dm es es2 h1, sanL_tokenFree lp dm rest rest2 h2]
              rfl

end

mutual

/-- On a well-formed, null-free tree the sanitiser is exactly the
spec-side expansion map, dict entries case. -/
theorem sanE_expand (lp dm : String) :
    ∀ es : List (String × Value), wfEntries es = true →
      firstNullKeyEntries es = none →
      sanitiseEntries lp dm es = Except.ok (expandEntries lp dm es)
  | [], _, _ => by rw [sanitiseEntries, expandEntries]
  | (k, v) :: rest, hwf, hnn => by
      rw [wfEntries, Bool.and_eq_true] at hwf
      rw [firstNullKeyEntries] at hnn
      cases hv : firstNullKeyEntry k v with
      | some k2 => rw [hv] at hnn; exact absurd hnn (by simp)
      | none =>
          rw [hv] at hnn
          simp [sanitiseEntries, sanV_expand lp dm k v hwf.1 hv,
            sanE_expand lp dm rest hwf.2 hnn, expandEntries]

/-- On a well-formed, null-free tree the sanitiser is exactly the
spec-side expansion map, one value case. -/
theorem sanV_expand (lp dm : String) :
    ∀ (k : String) (v : Value), wfValue v = true →
      firstNullKeyEntry k v = none →
      sanitiseEntry lp dm k v = Except.ok (expandValue lp dm v)
  | k, Value.vnull, _, hnn => by
      rw [firstNullKeyEntry] at hnn
      exact absurd hnn (by simp)
  | k, Value.vbool b, _, _ => by simp [sanitiseEntry, expandValue]
  | k, Value.vint n, _, _ => by simp [sanitiseEntry, expandValue]
  | k, Value.vstr t, _, _ => by rw [sanitiseEntry, expandValue]
  | k, Value.vdict es, hwf, hnn => by
      rw [wfValue] at hwf
      rw [firstNullKeyEntry] at hnn
      simp [sanitiseEntry, sanE_expand lp dm es hwf hnn, expandValue]
  | k, Value.vlist vs, hwf, hnn => by
      rw [wfValue] at hwf
      rw [firstNullKeyEntry] at hnn
      simp [sanitiseEntry, sanL_expand lp dm vs hwf hnn, expandValue]

/-- On a well-formed, null-free tree the sanitiser is exactly the
spec-side expansion map, list elements case. -/
theorem sanL_expand (lp dm : String) :
    ∀ vs : List Value, wfList vs = true →
      firstNullKeyList vs = none →
      sanitiseList lp dm vs = Except.ok (expandList lp dm vs)
  | [], _, _ => by rw [sanitiseList, expandList]
  | Value.vdict es :: rest, hwf, hnn => by
      rw [wfList, Bool.and_eq_true] at hwf
      rw [firstNullKeyList] at hnn
      cases he : firstNullKeyEntries es with
      | some k2 => rw [he] at hnn; exact absurd hnn (by simp)
      | none =>
          rw [he] at hnn
          simp [sanitiseList, sanE_expand lp dm es hwf.1 he,
            sanL_expand lp dm rest hwf.2 hnn, expandList, expandValue]
  | Value.vnull :: rest, hwf, _ => by simp [wfList] at hwf
  | Value.vbool b :: rest, hwf, _ => by simp [wfList] at hwf
  | Value.vint n :: rest, hwf, _ => by simp [wfList] at hwf
  | Value.vstr t :: rest, hwf, _ => by simp [wfList] at hwf
  | Value.vlist vs0 :: rest, hwf, _ => by simp [wfList] at hwf

end

mutual

/-- On a well-formed tree holding a null, the sanitiser raises the
payload-integrity error naming the first null key, dict entries
case. -/
theorem sanE_null (lp dm : String) :
    ∀ (es : List (String × Value)) (k : String), wfEntries es = true →
      firstNullKeyEntries es = some k →
      sanitiseEntries lp dm es =
        Except.error (Err.typeError ("Missing value for payload key \"" ++ k ++ "\""))
  | [], k, _, hfn => by simp [firstNullKeyEntries] at hfn
  | (k0, v) :: rest, k, hwf, hfn => by
      rw [wfEntries, Bool.and_eq_true] at hwf
      rw [firstNullKeyEntries] at hfn
      cases hv : firstNullKeyEntry k0 v with
      | some k2 =>
          rw [hv] at hfn
          simp only [Option.some.injEq] at hfn
          subst hfn
          simp [sanitiseEntries, sanV_null lp dm k0 v k2 hwf.1 hv]
      | none =>
          rw [hv] at hfn
          simp [sanitiseEntries, sanV_expand lp dm k0 v hwf.1 hv,
            sanE_null lp dm rest k hwf.2 hfn]

/-- First-null error, one value case. -/
theorem sanV_null (lp dm : String) :
    ∀ (k0 : String) (v : Value) (k : String), wfValue v = true →
      firstNullKeyEntry k0 v = some k →
      sanitiseEntry lp dm k0 v =
        Except.error (Err.typeError ("Missing value for payload key \"" ++ k ++ "\""))
  | k0, Value.vnull, k, _, hfn => by
      rw [firstNullKeyEntry] at hfn
      simp only [Option.some.injEq] at hfn
      subst hfn
      rw [sanitiseEntry]
  | k0, Value.vbool b, k, _, hfn => by simp [firstNullKeyEntry] at hfn
  | k0, Value.vint n, k, _, hfn => by simp [firstNullKeyEntry] at hfn
  | k0, Value.vstr t, k, _, hfn => by simp [firstNullKeyEntry] at hfn
  | k0, Value.vdict es, k, hwf, hfn => by
      rw [wfValue] at hwf
      rw [firstNullKeyEntry] at hfn
      simp [sanitiseEntry, sanE_null lp dm es k hwf hfn]
  | k0, Value.vlist vs, k, hwf, hfn => by
      rw [wfValue] at hwf
      rw [firstNullKeyEntry] at hfn
      simp [sanitiseEntry, sanL_null lp dm vs k hwf hfn]

/-- First-null error, list elements case. -/
theorem sanL_null (lp dm : String) :
    ∀ (vs : List Value) (k : String), wfList vs = true →
      firstNullKeyList vs = some k →
      sanitiseList lp dm vs =
        Except.error (Err.typeError ("Missing value for payload key \"" ++ k ++ "\""))
  | [], k, _, hfn => by simp [firstNullKeyList] at hfn
  | Value.vdict es :: rest, k, hwf, hfn => by
      rw [wfList, Bool.and_eq_true] at hwf
      rw [firstNullKeyList] at hfn
      cases he : firstNullKeyEntries es with
      | some k2 =>
          rw [he] at hfn
          simp only [Option.some.injEq] at hfn
          subst hfn
          simp [sanitiseList, sanE_null lp dm es k2 hwf.1 he]
      | none =>
          rw [he] at hfn
          simp [sanitiseList, sanE_expand lp dm es hwf.1 he,
            sanL_null lp dm rest k hwf.2 hfn]
  | Value.vnull :: rest, k, hwf, _ => by simp [wfList] at hwf
  | Value.vbool b :: rest, k, hwf, _ => by simp [wfList] at hwf
  | Value.vint n :: rest, k, hwf, _ => by simp [wfList] at hwf
  | Value.vstr t :: rest, k, hwf, _ => by simp [wfList] at hwf
  | Value.vlist vs0 :: rest, k, hwf, _ => by simp [wfList] at hwf

end

/-- A produced (non-empty) document's outer tree is token-free. -/
theorem rest_tokenFree (d : Domain) (lr : Option LookupResult)
    (u1 u2 lp dp rn : String) (o : List (String × Value))
    (h : client_config_rest d lr u1 u2 lp dp rn = Except.ok (some o)) :
    tokenFreeEntries o = true := by
  unfold client_config_rest at h
  cases hfill : fill_servers (payload_inner lp dp u1) d.servers with
  | error e => rw [hfill] at h; exact absurd h (by simp)
  | ok inner2 =>
      rw [hfill] at h
      dsimp only at h
      cases hsan : sanitiseEntries lp dp (payload_outer dp u2
          (dictSet inner2 "EmailAccountName"
            (Value.vstr (tlit (effective_realname lr rn))))) with
      | error e => rw [hsan] at h; exact absurd h (by simp)
      | ok outer2 =>
          rw [hsan] at h
          simp only [Except.ok.injEq, Option.some.injEq] at h
          subst h
          exact sanE_tokenFree lp dp _ _ hsan

/-- Any outer tree `client_config_core` delivers is token-free. -/
theorem core_tokenFree (db : List Domain)
    (client : Ldapserver → String → LookupResult)
    (u1 u2 lp dp rn pw : String) (o : List (String × Value))
    (h : client_config_core db client u1 u2 lp dp rn pw = Except.ok (some o)) :
    tokenFreeEntries o = true := by
  unfold client_config_core at h
  cases hf : db.find? (fun x => x.name = dp) with
  | none => rw [hf] at h; exact absurd h (by simp)
  | some d =>
      rw [hf] at h
      dsimp only at h
      cases hp : d.provider with
      | none => rw [hp] at h; exact absurd h (by simp)
      | some p =>
          rw [hp] at h
          cases hs : d.servers.isEmpty with
          | true => rw [hs] at h; exact absurd h (by simp)
          | false =>
              rw [hs] at h
              simp only [Bool.false_eq_true, if_false] at h
              cases hl : d.ldapserver with
              | none =>
                  rw [hl] at h
                  dsimp only at h
                  exact rest_tokenFree d none u1 u2 lp dp rn o h
              | some ls =>
                  rw [hl] at h
                  unfold ldap_lookup at h
                  dsimp only at h
                  cases hst : (client ls (lp ++ "@" ++ dp)).status with
                  | error => simp [hst, Except.map] at h
                  | noMatch => simp [hst, Except.map] at h
                  | ok =>
                      simp [hst, Except.map] at h
                      exact rest_tokenFree d (some (client ls (lp ++ "@" ++ dp)))
                        u1 u2 lp dp rn o h

/-- C7: sanitization is exhaustive over the whole payload tree: on a
well-formed tree (list elements are sub-trees) with no null leaf it
returns exactly the tree with every string leaf placeholder-expanded;
on a well-formed tree with a null leaf it raises the payload-integrity
error naming the first offending key; every tree it returns is free of
unexpanded placeholder tokens, and so is every outer tree a document is
serialized from. -/
theorem sanitise_exhaustive :
    (∀ (lp dm : String) (es : List (String × Value)),
      wfEntries es = true → firstNullKeyEntries es = none →
      sanitiseEntries lp dm es = Except.ok (expandEntries lp dm es)) ∧
    (∀ (lp dm : String) (es : List (String × Value)) (k : String),
      wfEntries es = true → firstNullKeyEntries es = some k →
      sanitiseEntries lp dm es =
        Except.error (Err.typeError
          ("Missing value for payload key \"" ++ k ++ "\""))) ∧
    (∀ (lp dm : String) (es es2 : List (String × Value)),
      sanitiseEntries lp dm es = Except.ok es2 → tokenFreeEntries es2 = true) ∧
    (∀ (db : List Domain) (client : Ldapserver → String → LookupResult)
      (u1 u2 lp dp rn pw : String) (o : List (String × Value)),
      client_config_core db client u1 u2 lp dp rn pw = Except.ok (some o) →
      tokenFreeEntries o = true) :=
  ⟨fun lp dm es => sanE_expand lp dm es,
   fun lp dm es k => sanE_null lp dm es k,
   fun lp dm es es2 => sanE_tokenFree lp dm es es2,
   fun db client u1 u2 lp dp rn pw o =>
     core_tokenFree db client u1 u2 lp dp rn pw o⟩

/-- Witness for C7: a one-entry tree with a placeholder expands; a tree
with a null leaf errors naming its key; expanded output is token-free;
the concretely produced outer tree is token-free. -/
theorem sanitise_exhaustive_witness :
    sanitiseEntries "alice" "example.com" [("a", Value.vstr [Seg.phLocal])] =
      Except.ok (expandEntries "alice" "example.com"
        [("a", Value.vstr [Seg.phLocal])]) ∧
    sanitiseEntries "alice" "example.com"
        [("a", Value.vstr [Seg.phLocal]), ("b", Value.vnull)] =
      Except.error (Err.typeError "Missing value for payload key \"b\"") ∧
    tokenFreeEntries [("a", Value.vstr [Seg.lit "alice"])] = true ∧
    tokenFreeEntries fxOuterCn = true :=
  ⟨sanitise_exhaustive.1 "alice" "example.com"
     [("a", Value.vstr [Seg.phLocal])] rfl rfl,
   sanitise_exhaustive.2.1 "alice" "example.com"
     [("a", Value.vstr [Seg.phLocal]), ("b", Value.vnull)] "b" rfl rfl,
   sanitise_exhaustive.2.2.1 "alice" "example.com"
     [("a", Value.vstr [Seg.phLocal])] [("a", Value.vstr [Seg.lit "alice"])] rfl,
   sanitise_exhaustive.2.2.2 [fxDomainLdap] fxClientCn "u1" "u2" "alice"
     "example.com" "Alice A." "pw" fxOuterCn rfl⟩

/-! ## Uncovered transfer direction (C10) -/

theorem payload_inner_eq_innerF (lp dp u1 : String) :
    payload_inner lp dp u1 = innerF lp dp u1 Value.vnull
      (Value.vstr (tlit "EmailAuthPassword")) Value.vnull (Value.vint (-1))
      Value.vnull Value.vnull
      (Value.vstr (tlit "EmailAuthPassword")) Value.vnull (Value.vint (-1))
      Value.vnull Value.vnull := rfl

theorem dictSet_ean_innerF (lp dp u1 : String)
    (v ean ia ih ip iss iu oa oh op oss ou : Value) :
    dictSet (innerF lp dp u1 ean ia ih ip iss iu oa oh op oss ou)
      "EmailAccountName" v =
      innerF lp dp u1 v ia ih ip iss iu oa oh op oss ou := rfl

/-- Filling one smtp server moves the inner dict within the `innerF`
family, rewriting exactly the five Outgoing slots. -/
theorem fill_server_smtp (s : Server) (a : String)
    (ht : s.type = "smtp") (ha : AUTH_MAP.lookup s.authentication = some a)
    (lp dp u1 : String) (ean ia ih ip iss iu oa oh op oss ou : Value) :
    fill_server (innerF lp dp u1 ean ia ih ip iss iu oa oh op oss ou) s =
      Except.ok (innerF lp dp u1 ean ia ih ip iss iu
        (Value.vstr (tlit a)) (Value.vstr s.name) (Value.vint s.port)
        (Value.vbool (map_socket_type s)) (Value.vstr s.user_name)) := by
  unfold fill_server map_authentication
  rw [ht, ha]
  rfl

/-- Filling one imap server moves the inner dict within the `innerF`
family, rewriting exactly the five Incoming slots. -/
theorem fill_server_imap (s : Server) (a : String)
    (ht : s.type = "imap") (ha : AUTH_MAP.lookup s.authentication = some a)
    (lp dp u1 : String) (ean ia ih ip iss iu oa oh op oss ou : Value) :
    fill_server (innerF lp dp u1 ean ia ih ip iss iu oa oh op oss ou) s =
      Except.ok (innerF lp dp u1 ean
        (Value.vstr (tlit a)) (Value.vstr s.name) (Value.vint s.port)
        (Value.vbool (map_socket_type s)) (Value.vstr s.user_name)
        oa oh op oss ou) := by
  unfold fill_server map_authentication
  rw [ht, ha]
  rfl

/-- Folding the fill over an all-smtp server list leaves the Incoming
slots (and the account name) untouched. -/
theorem fill_servers_smtp :
    ∀ servers : List Server,
      (∀ s ∈ servers, s.type = "smtp" ∧
        (AUTH_MAP.lookup s.authentication).isSome = true) →
      ∀ (lp dp u1 : String) (ean ia ih ip iss iu oa oh op oss ou : Value),
        ∃ oa2 oh2 op2 oss2 ou2,
          fill_servers (innerF lp dp u1 ean ia ih ip iss iu oa oh op oss ou)
              servers =
            Except.ok (innerF lp dp u1 ean ia ih ip iss iu oa2 oh2 op2 oss2 ou2) := by
  intro servers
  induction servers with
  | nil =>
      intro _ lp dp u1 ean ia ih ip iss iu oa oh op oss ou
      exact ⟨oa, oh, op, oss, ou, by rw [fill_servers]⟩
  | cons s rest IH =>
      intro hall lp dp u1 ean ia ih ip iss iu oa oh op oss ou
      obtain ⟨ht, hsome⟩ := hall s (List.mem_cons_self s rest)
      obtain ⟨a, ha⟩ := Option.isSome_iff_exists.mp hsome
      have hrest : ∀ s2 ∈ rest, s2.type = "smtp" ∧
          (AUTH_MAP.lookup s2.authentication).isSome = true :=
        fun s2 h2 => hall s2 (List.mem_cons_of_mem s h2)
      rw [fill_servers, fill_server_smtp s a ht ha]
      exact IH hrest lp dp u1 ean ia ih ip iss iu _ _ _ _ _

/-- Folding the fill over an all-imap server list keeps the Outgoing
slots and, once the Incoming slots carry server data, their
constructor shapes. -/
theorem fill_servers_imap_aux :
    ∀ rest : List Server,
      (∀ s ∈ rest, s.type = "imap" ∧
        (AUTH_MAP.lookup s.authentication).isSome = true) →
      ∀ (lp dp u1 : String) (ean : Value) (ta : String) (t1 : Template)
        (n : Int) (bb : Bool) (t2 : Template) (oa oh op oss ou : Value),
        ∃ (tab : String) (t1b : Template) (nb : Int) (bbb : Bool)
          (t2b : Template),
          fill_servers (innerF lp dp u1 ean
              (Value.vstr (tlit ta)) (Value.vstr t1) (Value.vint n)
              (Value.vbool bb) (Value.vstr t2) oa oh op oss ou) rest =
            Except.ok (innerF lp dp u1 ean
              (Value.vstr (tlit tab)) (Value.vstr t1b) (Value.vint nb)
              (Value.vbool bbb) (Value.vstr t2b) oa oh op oss ou) := by
  intro rest
  induction rest with
  | nil =>
      intro _ lp dp u1 ean ta t1 n bb t2 oa oh op oss ou
      exact ⟨ta, t1, n, bb, t2, by rw [fill_servers]⟩
  | cons s rest2 IH =>
      intro hall lp dp u1 ean ta t1 n bb t2 oa oh op oss ou
      obtain ⟨ht, hsome⟩ := hall s (List.mem_cons_self s rest2)
      obtain ⟨a, ha⟩ := Option.isSome_iff_exists.mp hsome
      have hrest : ∀ s2 ∈ rest2, s2.type = "imap" ∧
          (AUTH_MAP.lookup s2.authentication).isSome = true :=
        fun s2 h2 => hall s2 (List.mem_cons_of_mem s h2)
      rw [fill_servers, fill_server_imap s a ht ha]
      exact IH hrest lp dp u1 ean a s.name s.port (map_socket_type s)
        s.user_name oa oh op oss ou

/-- The non-empty all-imap fill delivers Incoming slots with server
data and untouched Outgoing slots. -/
theorem fill_servers_imap (servers : List Server) (hne : servers ≠ [])
    (hall : ∀ s ∈ servers, s.type = "imap" ∧
      (AUTH_MAP.lookup s.authentication).isSome = true)
    (lp dp u1 : String) (ean ia ih ip iss iu oa oh op oss ou : Value) :
    ∃ (tab : String) (t1b : Template) (nb : Int) (bbb : Bool)
      (t2b : Template),
      fill_servers (innerF lp dp u1 ean ia ih ip iss iu oa oh op oss ou)
          servers =
        Except.ok (innerF lp dp u1 ean
          (Value.vstr (tlit tab)) (Value.vstr t1b) (Value.vint nb)
          (Value.vbool bbb) (Value.vstr t2b) oa oh op oss ou) := by
  cases servers with
  | nil => exact absurd rfl hne
  | cons s rest =>
      obtain ⟨ht, hsome⟩ := hall s (List.mem_cons_self s rest)
      obtain ⟨a, ha⟩ := Option.isSome_iff_exists.mp hsome
      have hrest : ∀ s2 ∈ rest, s2.type = "imap" ∧
          (AUTH_MAP.lookup s2.authentication).isSome = true :=
        fun s2 h2 => hall s2 (List.mem_cons_of_mem s h2)
      rw [fill_servers, fill_server_imap s a ht ha]
      exact fill_servers_imap_aux rest hrest lp dp u1 ean a s.name s.port
        (map_socket_type s) s.user_name oa oh op oss ou

/-- Sanitising the outer tree over an inner dict whose Incoming host
slot still holds the null sentinel raises the payload-integrity error
for `IncomingMailServerHostName`. -/
theorem sanitise_missing_incoming (lp dp u1 u2 rn2 : String)
    (oa oh op oss ou : Value) :
    sanitiseEntries lp dp (payload_outer dp u2
      (innerF lp dp u1 (Value.vstr (tlit rn2))
        (Value.vstr (tlit "EmailAuthPassword")) Value.vnull (Value.vint (-1))
        Value.vnull Value.vnull oa oh op oss ou)) =
      Except.error (Err.typeError
        "Missing value for payload key \"IncomingMailServerHostName\"") := rfl

/-- Sanitising the outer tree over an inner dict whose Outgoing host
slot still holds the null sentinel raises the payload-integrity error
for `OutgoingMailServerHostName`. -/
theorem sanitise_missing_outgoing (lp dp u1 u2 rn2 ta : String)
    (t1 t2 : Template) (n : Int) (bb : Bool) :
    sanitiseEntries lp dp (payload_outer dp u2
      (innerF lp dp u1 (Value.vstr (tlit rn2))
        (Value.vstr (tlit ta)) (Value.vstr t1) (Value.vint n)
        (Value.vbool bb) (Value.vstr t2)
        (Value.vstr (tlit "EmailAuthPassword")) Value.vnull (Value.vint (-1))
        Value.vnull Value.vnull)) =
      Except.error (Err.typeError
        "Missing value for payload key \"OutgoingMailServerHostName\"") := rfl

/-- With only (valid) smtp servers, steps 5–8 fail on the untouched
`IncomingMailServerHostName` null sentinel. -/
theorem rest_missing_incoming (d : Domain) (lr : Option LookupResult)
    (u1 u2 lp dp rn : String)
    (hall : ∀ s ∈ d.servers, s.type = "smtp" ∧
      (AUTH_MAP.lookup s.authentication).isSome = true) :
    client_config_rest d lr u1 u2 lp dp rn =
      Except.error (Err.typeError
        "Missing value for payload key \"IncomingMailServerHostName\"") := by
  obtain ⟨oa2, oh2, op2, oss2, ou2, hfill⟩ :=
    fill_servers_smtp d.servers hall lp dp u1 Value.vnull
      (Value.vstr (tlit "EmailAuthPassword")) Value.vnull (Value.vint (-1))
      Value.vnull Value.vnull
      (Value.vstr (tlit "EmailAuthPassword")) Value.vnull (Value.vint (-1))
      Value.vnull Value.vnull
  unfold client_config_rest
  rw [payload_inner_eq_innerF, hfill]
  dsimp only
  rw [dictSet_ean_innerF, sanitise_missing_incoming]

/-- With only (valid) imap servers, steps 5–8 fail on the untouched
`OutgoingMailServerHostName` null sentinel. -/
theorem rest_missing_outgoing (d : Domain) (lr : Option LookupResult)
    (u1 u2 lp dp rn : String) (hne : d.servers ≠ [])
    (hall : ∀ s ∈ d.servers, s.type = "imap" ∧
      (AUTH_MAP.lookup s.authentication).isSome = true) :
    client_config_rest d lr u1 u2 lp dp rn =
      Except.error (Err.typeError
        "Missing value for payload key \"OutgoingMailServerHostName\"") := by
  obtain ⟨tab, t1b, nb, bbb, t2b, hfill⟩ :=
    fill_servers_imap d.servers hne hall lp dp u1 Value.vnull
      (Value.vstr (tlit "EmailAuthPassword")) Value.vnull (Value.vint (-1))
      Value.vnull Value.vnull
      (Value.vstr (tlit "EmailAuthPassword")) Value.vnull (Value.vint (-1))
      Value.vnull Value.vnull
  unfold client_config_rest
  rw [payload_inner_eq_innerF, hfill]
  dsimp only
  rw [dictSet_ean_innerF, sanitise_missing_outgoing]

/-- C10 counterexample: a domain whose only server is pop3-typed has no
imap server and does not short-circuit, yet `client_config` raises
`InvalidServerType`, not the payload-integrity error the claim
predicts. -/
theorem uncovered_direction_counterexample :
    client_config [fxDomainPop3] fxClientPlain "u1" "u2" "alice" "example.com"
      "Alice A." "pw" =
      Except.error (Err.invalidServerType "Invalid server type \"POP3\"") ∧
    ¬ client_config [fxDomainPop3] fxClientPlain "u1" "u2" "alice" "example.com"
      "Alice A." "pw" =
      Except.error (Err.typeError
        "Missing value for payload key \"IncomingMailServerHostName\"") :=
  ⟨rfl, fun h => absurd (Except.error.inj h) (by decide)⟩

/-- C10 amended: for a resolvable domain whose servers all have
recognized types and authentication kinds, which does not short-circuit
(no directory server, or a lookup with status ok): if no server is an
imap server (all are smtp), `client_config` raises the
payload-integrity error for `IncomingMailServerHostName`; if no server
is an smtp server (all are imap), it raises the payload-integrity error
for `OutgoingMailServerHostName`. -/
theorem uncovered_direction_payload_error (db : List Domain)
    (client : Ldapserver → String → LookupResult)
    (u1 u2 lp dp rn pw : String) (d : Domain)
    (hf : db.find? (fun x => x.name = dp) = some d)
    (hp : d.provider.isSome = true)
    (hne : d.servers ≠ [])
    (hldap : d.ldapserver = none ∨ ∃ ls, d.ldapserver = some ls ∧
      (client ls (lp ++ "@" ++ dp)).status = LStatus.ok) :
    ((∀ s ∈ d.servers, s.type = "smtp" ∧
        (AUTH_MAP.lookup s.authentication).isSome = true) →
      client_config db client u1 u2 lp dp rn pw =
        Except.error (Err.typeError
          "Missing value for payload key \"IncomingMailServerHostName\"")) ∧
    ((∀ s ∈ d.servers, s.type = "imap" ∧
        (AUTH_MAP.lookup s.authentication).isSome = true) →
      client_config db client u1 u2 lp dp rn pw =
        Except.error (Err.typeError
          "Missing value for payload key \"OutgoingMailServerHostName\"")) := by
  have hs : d.servers.isEmpty = false := by
    cases hserv : d.servers with
    | nil => exact absurd hserv hne
    | cons s rest => rfl
  constructor <;> intro hall
  · rcases hldap with hl | ⟨ls, hl, hst⟩
    · have hcore := core_no_ldap db client u1 u2 lp dp rn pw d hf hp hs hl
      unfold client_config
      rw [hcore, rest_missing_incoming d none u1 u2 lp dp rn hall]
    · have hcore := core_ldap_ok db client u1 u2 lp dp rn pw d ls hf hp hs hl hst
      unfold client_config
      rw [hcore, rest_missing_incoming d (some (client ls (lp ++ "@" ++ dp)))
        u1 u2 lp dp rn hall]
  · rcases hldap with hl | ⟨ls, hl, hst⟩
    · have hcore := core_no_ldap db client u1 u2 lp dp rn pw d hf hp hs hl
      unfold client_config
      rw [hcore, rest_missing_outgoing d none u1 u2 lp dp rn hne hall]
    · have hcore := core_ldap_ok db client u1 u2 lp dp rn pw d ls hf hp hs hl hst
      unfold client_config
      rw [hcore, rest_missing_outgoing d (some (client ls (lp ++ "@" ++ dp)))
        u1 u2 lp dp rn hne hall]

/-- Witness for the amended C10: concrete smtp-only and imap-only
domains raise the payload-integrity error of the uncovered
direction. -/
theorem uncovered_direction_payload_error_witness :
    client_config [fxDomainOnlySmtp] fxClientPlain "u1" "u2" "alice" "example.com"
      "Alice A." "pw" =
      Except.error (Err.typeError
        "Missing value for payload key \"IncomingMailServerHostName\"") ∧
    client_config [fxDomainOnlyImap] fxClientPlain "u1" "u2" "alice" "example.com"
      "Alice A." "pw" =
      Except.error (Err.typeError
        "Missing value for payload key \"OutgoingMailServerHostName\"") :=
  ⟨(uncovered_direction_payload_error [fxDomainOnlySmtp] fxClientPlain "u1" "u2"
      "alice" "example.com" "Alice A." "pw" fxDomainOnlySmtp rfl rfl (by decide)
      (Or.inl rfl)).1 (by decide),
   (uncovered_direction_payload_error [fxDomainOnlyImap] fxClientPlain "u1" "u2"
      "alice" "example.com" "Alice A." "pw" fxDomainOnlyImap rfl rfl (by decide)
      (Or.inl rfl)).2 (by decide)⟩

end Automx2
